import Mathlib

/-!
Verification of the Novus Aroma Estoque inventory ledger
(src/novusaromaestoque.py) against its specification.

The Python class `NovusAromaEstoque` is embedded shallowly: the object's
mutable fields become a state structure, each method becomes a function
taking and (when it mutates) returning the state.  Python decimals/floats
are modelled by `ℚ` (all prices in play are exact decimals), Python `int`
by `Int`, Python ids by `Nat`, Python `None`-able values by `Option`, and
Python string truthiness (`if x:` on an optional string) by an explicit
`truthyStr`.  `str.lower()` is modelled by the character-wise `lowerStr`, and the
Python substring test `a in b` by `strContains b a` below.  The current
timestamp (`datetime.now()`) is an input parameter `now`/`today`, since it
is the only nondeterminism in the program.
-/

/-- A product record, as built by `add_perfume` in the source
(fields `id, nome, marca, preco, estoque, ml, categoria, imagem`). -/
structure Perfume where
  id : Nat
  nome : String
  marca : String
  preco : ℚ
  estoque : Int
  ml : Int
  categoria : String
  imagem : Option String
deriving Repr, DecidableEq

/-- A sale record, as built by `add_venda` in the source. -/
structure Venda where
  id : Nat
  productId : Nat
  productName : String
  productBrand : String
  quantity : Int
  unitPrice : ℚ
  total : ℚ
  customerName : String
  customerPhone : Option String
  customerInstagram : Option String
  customerEmail : Option String
  postedInstagram : String
  salesChannel : String
  deliveryLocation : String
  paymentMethod : String
  installments : Int
  cardFee : ℚ
  saleNotes : Option String
  date : String
deriving Repr, DecidableEq

/-- The mutable state of a `NovusAromaEstoque` object: the two lists and
the two id counters set up in `__init__`. -/
structure NovusAromaEstoque where
  perfumes : List Perfume
  vendas : List Venda
  perfume_id_counter : Nat
  vendas_id_counter : Nat
deriving Repr, DecidableEq

/-- The freshly constructed object: empty lists, both counters at 1. -/
def initial : NovusAromaEstoque :=
  { perfumes := [], vendas := [], perfume_id_counter := 1, vendas_id_counter := 1 }

/-- Python truthiness of an optional string: `None` and `""` are falsy. -/
def truthyStr : Option String → Bool
  | none => false
  | some x => x != ""

/-- `listStartsWith needle hay`: `needle` is a prefix of `hay`
(on character lists). -/
def listStartsWith : List Char → List Char → Bool
  | [], _ => true
  | _ :: _, [] => false
  | a :: as, b :: bs => a == b && listStartsWith as bs

/-- `listContainsSub needle hay`: `needle` occurs as a contiguous
sublist of `hay`. -/
def listContainsSub (needle : List Char) : List Char → Bool
  | [] => needle.isEmpty
  | c :: rest => listStartsWith needle (c :: rest) || listContainsSub needle rest

/-- The Python substring test `needle in hay` for strings. -/
def strContains (hay needle : String) : Bool :=
  listContainsSub needle.data hay.data

/-- The Python `str.lower()`: lowercase every character. -/
def lowerStr (s : String) : String :=
  ⟨s.data.map Char.toLower⟩

/-- `add_perfume`: build the record from the arguments, append it, bump the
id counter, return the new state and the created record. -/
def add_perfume (s : NovusAromaEstoque) (nome marca : String) (preco : ℚ)
    (estoque ml : Int) (categoria : String) (imagem : Option String := none) :
    NovusAromaEstoque × Perfume :=
  let perfume : Perfume :=
    { id := s.perfume_id_counter, nome := nome, marca := marca, preco := preco,
      estoque := estoque, ml := ml, categoria := categoria, imagem := imagem }
  ({ s with perfumes := s.perfumes ++ [perfume],
            perfume_id_counter := s.perfume_id_counter + 1 }, perfume)

/-- The keyword arguments of `update_perfume`; every field defaults to
`None` (here `none`), which the source treats as "leave unchanged". -/
structure UpdateArgs where
  nome : Option String := none
  marca : Option String := none
  preco : Option ℚ := none
  estoque : Option Int := none
  ml : Option Int := none
  categoria : Option String := none
  imagem : Option String := none
deriving Repr, DecidableEq

/-- The body of `update_perfume` once the record is found: each of the
seven `if x is not None:` statements overwrites one field. -/
def applyUpdate (p : Perfume) (a : UpdateArgs) : Perfume :=
  let p := match a.nome with | some v => { p with nome := v } | none => p
  let p := match a.marca with | some v => { p with marca := v } | none => p
  let p := match a.preco with | some v => { p with preco := v } | none => p
  let p := match a.estoque with | some v => { p with estoque := v } | none => p
  let p := match a.ml with | some v => { p with ml := v } | none => p
  let p := match a.categoria with | some v => { p with categoria := v } | none => p
  let p := match a.imagem with | some v => { p with imagem := some v } | none => p
  p

/-- The linear scan of `update_perfume`: mutate the first record whose id
matches (the loop `return`s there) and report it; otherwise report `none`. -/
def updateList (ps : List Perfume) (id : Nat) (a : UpdateArgs) :
    List Perfume × Option Perfume :=
  match ps with
  | [] => ([], none)
  | p :: rest =>
    if p.id = id then (applyUpdate p a :: rest, some (applyUpdate p a))
    else
      let r := updateList rest id a
      (p :: r.1, r.2)

/-- `update_perfume`: scan `self.perfumes`, update in place, return the
updated record or `None`. -/
def update_perfume (s : NovusAromaEstoque) (id : Nat) (a : UpdateArgs) :
    NovusAromaEstoque × Option Perfume :=
  let r := updateList s.perfumes id a
  ({ s with perfumes := r.1 }, r.2)

/-- The linear scan of `delete_perfume`: `pop` the first record whose id
matches and return it; otherwise return `none`. -/
def deleteList (ps : List Perfume) (id : Nat) : List Perfume × Option Perfume :=
  match ps with
  | [] => ([], none)
  | p :: rest =>
    if p.id = id then (rest, some p)
    else
      let r := deleteList rest id
      (p :: r.1, r.2)

/-- `delete_perfume`: remove and return the first record with the given id,
or return `None` leaving the state alone. -/
def delete_perfume (s : NovusAromaEstoque) (id : Nat) :
    NovusAromaEstoque × Option Perfume :=
  let r := deleteList s.perfumes id
  ({ s with perfumes := r.1 }, r.2)

/-- `get_perfume`: first record with the given id, if any. -/
def get_perfume (s : NovusAromaEstoque) (id : Nat) : Option Perfume :=
  s.perfumes.find? (fun p => p.id == id)

/-- `get_perfumes`: the product list, narrowed by the category filter when
`categoria` is truthy and not the sentinel `"Todos"`, then by the
case-insensitive name/brand substring filter when `search_term` is truthy. -/
def get_perfumes (s : NovusAromaEstoque)
    (categoria : Option String := none) (search_term : Option String := none) :
    List Perfume :=
  let result := s.perfumes
  let result :=
    match categoria with
    | some c => if c != "" && c != "Todos"
        then result.filter (fun p => p.categoria == c) else result
    | none => result
  match search_term with
  | some t0 =>
    if t0 != "" then
      let t := lowerStr t0
      result.filter (fun p =>
        strContains (lowerStr p.nome) t || strContains (lowerStr p.marca) t)
    else result
  | none => result

/-- The in-place mutation `product['estoque'] -= quantity` seen from the
list: the object returned by `get_perfume` is the first record whose id
matches, so exactly that entry has its stock decremented. -/
def decStock (ps : List Perfume) (id : Nat) (quantity : Int) : List Perfume :=
  match ps with
  | [] => []
  | p :: rest =>
    if p.id = id then { p with estoque := p.estoque - quantity } :: rest
    else p :: decStock rest id quantity

/-- `add_venda`: fail (state unchanged, `none` returned) when the product
is missing or its stock is below the quantity; otherwise decrement the
found product's stock in place, build the sale record, append it, bump the
sale id counter.  `now` stands for `self.get_current_datetime()`. -/
def add_venda (s : NovusAromaEstoque) (product_id : Nat) (quantity : Int)
    (unit_price : ℚ) (customer_name : String)
    (customer_phone : Option String := none)
    (customer_instagram : Option String := none)
    (customer_email : Option String := none)
    (posted_instagram : String := "Não")
    (sales_channel : String := "Instagram")
    (delivery_location : String := "Retirada na Loja")
    (payment_method : String := "PIX")
    (installments : Int := 1) (card_fee : ℚ := 0)
    (sale_notes : Option String := none) (now : String := "") :
    NovusAromaEstoque × Option Venda :=
  match get_perfume s product_id with
  | none => (s, none)
  | some product =>
    if product.estoque < quantity then (s, none)
    else
      let sale : Venda :=
        { id := s.vendas_id_counter, productId := product_id,
          productName := product.nome, productBrand := product.marca,
          quantity := quantity, unitPrice := unit_price,
          total := unit_price * (quantity : ℚ),
          customerName := customer_name, customerPhone := customer_phone,
          customerInstagram := customer_instagram,
          customerEmail := customer_email,
          postedInstagram := posted_instagram, salesChannel := sales_channel,
          deliveryLocation := delivery_location,
          paymentMethod := payment_method, installments := installments,
          cardFee := card_fee, saleNotes := sale_notes, date := now }
      ({ s with
          perfumes := decStock s.perfumes product_id quantity,
          vendas := s.vendas ++ [sale],
          vendas_id_counter := s.vendas_id_counter + 1 }, some sale)

/-- `get_sales`: the sales list, narrowed by channel, payment and
customer/product-name search filters, each skipped when falsy or
(for channel/payment) the `"Todos"` sentinel. -/
def get_sales (s : NovusAromaEstoque)
    (search_term : Option String := none) (channel : Option String := none)
    (payment : Option String := none) : List Venda :=
  let result := s.vendas
  let result :=
    match channel with
    | some c => if c != "" && c != "Todos"
        then result.filter (fun v => v.salesChannel == c) else result
    | none => result
  let result :=
    match payment with
    | some c => if c != "" && c != "Todos"
        then result.filter (fun v => v.paymentMethod == c) else result
    | none => result
  match search_term with
  | some t0 =>
    if t0 != "" then
      let t := lowerStr t0
      result.filter (fun v =>
        strContains (lowerStr v.customerName) t || strContains (lowerStr v.productName) t)
    else result
  | none => result

/-- `get_total_items`: `sum(p['estoque'] for p in self.perfumes)`. -/
def get_total_items (s : NovusAromaEstoque) : Int :=
  (s.perfumes.map (fun p => p.estoque)).sum

/-- `get_total_value`: `sum(p['preco'] * p['estoque'] for p in self.perfumes)`. -/
def get_total_value (s : NovusAromaEstoque) : ℚ :=
  (s.perfumes.map (fun p => p.preco * (p.estoque : ℚ))).sum

/-- The record returned by `get_sales_stats`. -/
structure SalesStats where
  today_sales : ℚ
  total_sales : ℚ
  items_sold : Int
  unique_customers : Nat
deriving Repr, DecidableEq

/-- The date part of an ISO timestamp: `date.split('T')[0]`. -/
def dateOnly (d : String) : String :=
  (d.splitOn "T").headD ""

/-- `get_sales_stats`: sums over the sales list, plus the size of the set
of truthy (non-empty) customer names.  `today` stands for
`self.get_current_date()`. -/
def get_sales_stats (s : NovusAromaEstoque) (today : String) : SalesStats :=
  { today_sales :=
      ((s.vendas.filter (fun v => dateOnly v.date == today)).map
        (fun v => v.total)).sum,
    total_sales := (s.vendas.map (fun v => v.total)).sum,
    items_sold := (s.vendas.map (fun v => v.quantity)).sum,
    unique_customers :=
      (((s.vendas.map (fun v => v.customerName)).filter
        (fun n => n != "")).dedup).length }

/-! ### Helper lemmas about the scans -/

theorem find?_decStock (ps : List Perfume) (id : Nat) (q : Int) (p : Perfume)
    (h : ps.find? (fun x => x.id == id) = some p) :
    (decStock ps id q).find? (fun x => x.id == id) =
      some { p with estoque := p.estoque - q } := by
  induction ps with
  | nil => simp [List.find?] at h
  | cons hd tl ih =>
    by_cases hid : hd.id = id
    · rw [List.find?_cons_of_pos _ (by simpa using hid)] at h
      cases h
      simp [decStock, hid, List.find?_cons_of_pos]
    · rw [List.find?_cons_of_neg _ (by simpa using hid)] at h
      simp only [decStock, if_neg hid]
      rw [List.find?_cons_of_neg _ (by simpa using hid)]
      exact ih h

/-! ### Concrete states used by witnesses -/

/-- The ledger the example usage at the bottom of the source builds:
two sample products added to a fresh ledger. -/
def demoState : NovusAromaEstoque :=
  (add_perfume (add_perfume initial "Chanel N°5" "Chanel" 450 12 100 "Feminino").1
    "Sauvage" "Dior" 380 8 100 "Masculino").1

/-- The record `add_perfume` creates for the first sample product. -/
def demoPerfume1 : Perfume :=
  { id := 1, nome := "Chanel N°5", marca := "Chanel", preco := 450,
    estoque := 12, ml := 100, categoria := "Feminino", imagem := none }

/-- The record `add_perfume` creates for the second sample product. -/
def demoPerfume2 : Perfume :=
  { id := 2, nome := "Sauvage", marca := "Dior", preco := 380,
    estoque := 8, ml := 100, categoria := "Masculino", imagem := none }

/-! ### C1: recordSale failure leaves the state untouched -/

/-- C1: for every ledger state, `add_venda` fails (returns `none`, with no
exception — the function is total) whenever the referenced product does not
exist or its stock is strictly below the requested quantity, and then the
whole state — product list with all stocks, sales list, both counters — is
exactly the state before the call. -/
theorem recordSale_failure_frame (s : NovusAromaEstoque) (pid : Nat)
    (q : Int) (up : ℚ) (cn : String) (cp ci ce : Option String)
    (pi sc dl pm : String) (inst : Int) (cf : ℚ) (sn : Option String)
    (now : String)
    (h : get_perfume s pid = none ∨
         ∃ p, get_perfume s pid = some p ∧ p.estoque < q) :
    add_venda s pid q up cn cp ci ce pi sc dl pm inst cf sn now = (s, none) := by
  rcases h with h | ⟨p, hp, hlt⟩
  · simp [add_venda, h]
  · simp only [add_venda, hp, if_pos hlt]

/-- Witness for C1: in a concrete one-product ledger, a sale of 13 units of
a product with stock 12 fails and changes nothing, and a sale against an
absent product id fails and changes nothing. -/
theorem recordSale_failure_frame_witness :
    (∃ p, get_perfume demoState 1 = some p ∧ p.estoque < 13) ∧
    add_venda demoState 1 13 450 "Ana" none none none "Não" "Instagram"
      "Loja" "PIX" 1 0 none "2026-01-01T00:00:00" = (demoState, none) ∧
    get_perfume demoState 7 = none ∧
    add_venda demoState 7 1 450 "Ana" none none none "Não" "Instagram"
      "Loja" "PIX" 1 0 none "2026-01-01T00:00:00" = (demoState, none) := by
  refine ⟨⟨demoPerfume1, rfl, by decide⟩, ?_, rfl, ?_⟩
  · exact recordSale_failure_frame demoState 1 13 450 "Ana" none none none
      "Não" "Instagram" "Loja" "PIX" 1 0 none "2026-01-01T00:00:00"
      (Or.inr ⟨demoPerfume1, rfl, by decide⟩)
  · exact recordSale_failure_frame demoState 7 1 450 "Ana" none none none
      "Não" "Instagram" "Loja" "PIX" 1 0 none "2026-01-01T00:00:00"
      (Or.inl rfl)

/-! ### C2: recordSale success -/

/-- C2: whenever the referenced product exists with stock at least the
requested quantity, `add_venda` succeeds: the returned sale has total
`unit_price * quantity`, snapshot copies of the product's name and brand,
the next sequential sale id (which is then bumped), it is appended at the
end of the sales list, and the product's stock decreases by exactly the
quantity. -/
theorem recordSale_success (s : NovusAromaEstoque) (pid : Nat) (q : Int)
    (up : ℚ) (cn : String) (cp ci ce : Option String) (pi sc dl pm : String)
    (inst : Int) (cf : ℚ) (sn : Option String) (now : String) (p : Perfume)
    (hfind : get_perfume s pid = some p) (hstock : q ≤ p.estoque) :
    ∃ v : Venda,
      (add_venda s pid q up cn cp ci ce pi sc dl pm inst cf sn now).2 = some v ∧
      v.total = up * q ∧ v.quantity = q ∧ v.unitPrice = up ∧
      v.productName = p.nome ∧ v.productBrand = p.marca ∧
      v.productId = pid ∧ v.customerName = cn ∧ v.date = now ∧
      v.id = s.vendas_id_counter ∧
      (add_venda s pid q up cn cp ci ce pi sc dl pm inst cf sn now).1.vendas
        = s.vendas ++ [v] ∧
      (add_venda s pid q up cn cp ci ce pi sc dl pm inst cf sn now).1.vendas_id_counter
        = s.vendas_id_counter + 1 ∧
      (add_venda s pid q up cn cp ci ce pi sc dl pm inst cf sn now).1.perfume_id_counter
        = s.perfume_id_counter ∧
      get_perfume (add_venda s pid q up cn cp ci ce pi sc dl pm inst cf sn now).1 pid
        = some { p with estoque := p.estoque - q } := by
  have hA : add_venda s pid q up cn cp ci ce pi sc dl pm inst cf sn now =
      ({ s with perfumes := decStock s.perfumes pid q,
                vendas := s.vendas ++
                  [{ id := s.vendas_id_counter, productId := pid,
                     productName := p.nome, productBrand := p.marca,
                     quantity := q, unitPrice := up, total := up * (q : ℚ),
                     customerName := cn, customerPhone := cp,
                     customerInstagram := ci, customerEmail := ce,
                     postedInstagram := pi, salesChannel := sc,
                     deliveryLocation := dl, paymentMethod := pm,
                     installments := inst, cardFee := cf, saleNotes := sn,
                     date := now }],
                vendas_id_counter := s.vendas_id_counter + 1 },
        some { id := s.vendas_id_counter, productId := pid,
               productName := p.nome, productBrand := p.marca,
               quantity := q, unitPrice := up, total := up * (q : ℚ),
               customerName := cn, customerPhone := cp,
               customerInstagram := ci, customerEmail := ce,
               postedInstagram := pi, salesChannel := sc,
               deliveryLocation := dl, paymentMethod := pm,
               installments := inst, cardFee := cf, saleNotes := sn,
               date := now }) := by
    simp only [add_venda, hfind]
    rw [if_neg (not_lt.mpr hstock)]
  refine ⟨_, by rw [hA], rfl, rfl, rfl, rfl, rfl, rfl, rfl, rfl, rfl,
    by rw [hA], by rw [hA], by rw [hA], ?_⟩
  rw [hA]
  exact find?_decStock s.perfumes pid q p hfind

/-- Witness for C2: selling 5 units of the first demo product (stock 12)
succeeds, the sale totals `450 * 5`, carries the next sale id, and the
stock drops to 7. -/
theorem recordSale_success_witness :
    get_perfume demoState 1 = some demoPerfume1 ∧
    (5 : Int) ≤ demoPerfume1.estoque ∧
    ∃ v : Venda,
      (add_venda demoState 1 5 450 "Ana" none none none "Não" "Instagram"
        "Loja" "PIX" 1 0 none "2026-01-01T00:00:00").2 = some v ∧
      v.total = 450 * ((5 : Int) : ℚ) ∧ v.id = demoState.vendas_id_counter ∧
      get_perfume (add_venda demoState 1 5 450 "Ana" none none none "Não"
        "Instagram" "Loja" "PIX" 1 0 none "2026-01-01T00:00:00").1 1
        = some { demoPerfume1 with estoque := demoPerfume1.estoque - 5 } := by
  refine ⟨rfl, by decide, ?_⟩
  obtain ⟨v, h1, h2, h3, h4, h5, h6, h7, h8, h9, h10, h11, h12, h13, h14⟩ :=
    recordSale_success demoState 1 5 450 "Ana" none none none "Não" "Instagram"
      "Loja" "PIX" 1 0 none "2026-01-01T00:00:00" demoPerfume1 rfl (by decide)
  exact ⟨v, h1, h2, h10, h14⟩

/-! ### C3: sequential product ids -/

/-- A step of an interleaving of product additions and deletions. -/
inductive Op where
  | add (nome marca : String) (preco : ℚ) (estoque ml : Int)
        (categoria : String) (imagem : Option String)
  | del (id : Nat)

/-- Whether a step is an addition. -/
def isAddOp : Op → Bool
  | .add .. => true
  | .del _ => false

/-- The number of additions in an interleaving. -/
def countAdds (ops : List Op) : Nat :=
  ops.countP isAddOp

/-- Run an interleaving of `add_perfume` / `delete_perfume` calls,
collecting the id of each added product in order of addition. -/
def runOps (s : NovusAromaEstoque) : List Op → NovusAromaEstoque × List Nat
  | [] => (s, [])
  | Op.add n m pr e ml c i :: rest =>
    let r := add_perfume s n m pr e ml c i
    let rr := runOps r.1 rest
    (rr.1, r.2.id :: rr.2)
  | Op.del id :: rest =>
    runOps (delete_perfume s id).1 rest

theorem runOps_ids (ops : List Op) : ∀ s : NovusAromaEstoque,
    (runOps s ops).2 = List.range' s.perfume_id_counter (countAdds ops) := by
  induction ops with
  | nil => intro s; simp [runOps, countAdds]
  | cons op rest ih =>
    intro s
    cases op with
    | add n m pr e ml c i =>
      show ((add_perfume s n m pr e ml c i).2.id ::
        (runOps (add_perfume s n m pr e ml c i).1 rest).2) = _
      rw [ih]
      have hcount : countAdds (Op.add n m pr e ml c i :: rest)
          = countAdds rest + 1 := by
        simp [countAdds, List.countP_cons, isAddOp]
      rw [hcount, List.range'_succ]
      rfl
    | del id =>
      show (runOps (delete_perfume s id).1 rest).2 = _
      rw [ih]
      have hcount : countAdds (Op.del id :: rest) = countAdds rest := by
        simp [countAdds, List.countP_cons, isAddOp]
      rw [hcount]
      rfl

/-- C3: in any interleaving of additions and deletions run on a fresh
ledger, the added products receive exactly the ids `1, 2, ..., N`
(`N` the number of additions) in order of addition; the id list has no
duplicates, so an id — deleted or not — is never assigned twice. -/
theorem productIds_sequential (ops : List Op) :
    (runOps initial ops).2 = List.range' 1 (countAdds ops) ∧
    ((runOps initial ops).2).Nodup := by
  have h := runOps_ids ops initial
  refine ⟨h, ?_⟩
  rw [h]
  exact List.nodup_range' 1 (countAdds ops)

/-! ### C4: updateProduct partial-overwrite semantics -/

/-- The argument record of a call `update_perfume(id)` that supplies no
field keywords at all. -/
def noUpdate : UpdateArgs := {}

theorem applyUpdate_fields (p : Perfume) (a : UpdateArgs) :
    applyUpdate p a =
      { id := p.id, nome := a.nome.getD p.nome, marca := a.marca.getD p.marca,
        preco := a.preco.getD p.preco, estoque := a.estoque.getD p.estoque,
        ml := a.ml.getD p.ml, categoria := a.categoria.getD p.categoria,
        imagem := match a.imagem with | some v => some v | none => p.imagem } := by
  rcases a with ⟨n, m, pr, e, mll, c, i⟩
  cases n <;> cases m <;> cases pr <;> cases e <;> cases mll <;> cases c <;>
    cases i <;> rfl

theorem applyUpdate_noUpdate (p : Perfume) : applyUpdate p noUpdate = p := rfl

theorem updateList_find?_none (ps : List Perfume) (id : Nat) (a : UpdateArgs)
    (h : ps.find? (fun p => p.id == id) = none) :
    updateList ps id a = (ps, none) := by
  induction ps with
  | nil => rfl
  | cons hd tl ih =>
    by_cases hid : hd.id = id
    · rw [List.find?_cons_of_pos _ (by simpa using hid)] at h
      cases h
    · rw [List.find?_cons_of_neg _ (by simpa using hid)] at h
      simp [updateList, if_neg hid, ih h]

theorem updateList_find?_some (ps : List Perfume) (id : Nat) (a : UpdateArgs)
    (p : Perfume) (h : ps.find? (fun x => x.id == id) = some p) :
    (updateList ps id a).2 = some (applyUpdate p a) := by
  induction ps with
  | nil => simp [List.find?] at h
  | cons hd tl ih =>
    by_cases hid : hd.id = id
    · rw [List.find?_cons_of_pos _ (by simpa using hid)] at h
      cases h
      simp [updateList, if_pos hid]
    · rw [List.find?_cons_of_neg _ (by simpa using hid)] at h
      simp only [updateList, if_neg hid]
      exact ih h

theorem updateList_noUpdate (ps : List Perfume) (id : Nat) :
    updateList ps id noUpdate = (ps, ps.find? (fun p => p.id == id)) := by
  induction ps with
  | nil => rfl
  | cons hd tl ih =>
    by_cases hid : hd.id = id
    · rw [List.find?_cons_of_pos _ (by simpa using hid)]
      simp [updateList, if_pos hid, applyUpdate_noUpdate]
    · rw [List.find?_cons_of_neg _ (by simpa using hid)]
      simp [updateList, if_neg hid, ih]

/-- C4: `update_perfume` on a present id overwrites exactly the supplied
fields of that record (a supplied zero value such as price `0` or the
empty string still overwrites, since only absence — `none` — means "keep")
and leaves every omitted field unchanged; with no fields supplied it
returns the record unchanged and leaves the state unchanged; on an absent
id it returns `none` and changes nothing. -/
theorem updateProduct_partial_overwrite (s : NovusAromaEstoque) (id : Nat)
    (a : UpdateArgs) :
    (get_perfume s id = none → update_perfume s id a = (s, none)) ∧
    (∀ p, get_perfume s id = some p →
      (update_perfume s id a).2 = some (applyUpdate p a) ∧
      (update_perfume s id a).1.vendas = s.vendas ∧
      (update_perfume s id a).1.perfume_id_counter = s.perfume_id_counter ∧
      (update_perfume s id a).1.vendas_id_counter = s.vendas_id_counter ∧
      (applyUpdate p a).id = p.id ∧
      (applyUpdate p a).nome = a.nome.getD p.nome ∧
      (applyUpdate p a).marca = a.marca.getD p.marca ∧
      (applyUpdate p a).preco = a.preco.getD p.preco ∧
      (applyUpdate p a).estoque = a.estoque.getD p.estoque ∧
      (applyUpdate p a).ml = a.ml.getD p.ml ∧
      (applyUpdate p a).categoria = a.categoria.getD p.categoria ∧
      (a.imagem = none → (applyUpdate p a).imagem = p.imagem) ∧
      (∀ v, a.imagem = some v → (applyUpdate p a).imagem = some v)) ∧
    update_perfume s id noUpdate = (s, get_perfume s id) := by
  refine ⟨?_, ?_, ?_⟩
  · intro h
    have h2 := updateList_find?_none s.perfumes id a h
    show ({ s with perfumes := (updateList s.perfumes id a).1 },
          (updateList s.perfumes id a).2) = (s, none)
    rw [h2]
  · intro p hp
    have h2 := updateList_find?_some s.perfumes id a p hp
    refine ⟨h2, rfl, rfl, rfl, ?_, ?_, ?_, ?_, ?_, ?_, ?_, ?_, ?_⟩
    · rw [applyUpdate_fields]
    · rw [applyUpdate_fields]
    · rw [applyUpdate_fields]
    · rw [applyUpdate_fields]
    · rw [applyUpdate_fields]
    · rw [applyUpdate_fields]
    · rw [applyUpdate_fields]
    · intro hi; rw [applyUpdate_fields, hi]
    · intro v hi; rw [applyUpdate_fields, hi]
  · have h2 := updateList_noUpdate s.perfumes id
    show ({ s with perfumes := (updateList s.perfumes id noUpdate).1 },
          (updateList s.perfumes id noUpdate).2) = (s, get_perfume s id)
    rw [h2]
    exact rfl

/-- Witness for C4: on the demo ledger, updating an absent id changes
nothing; updating product 1 with price `0` and name `""` (zero values)
overwrites those two fields and leaves stock, brand and category alone;
an update with no fields returns the record unchanged. -/
theorem updateProduct_partial_overwrite_witness :
    get_perfume demoState 7 = none ∧
    update_perfume demoState 7 { preco := some 0 } = (demoState, none) ∧
    get_perfume demoState 1 = some demoPerfume1 ∧
    (update_perfume demoState 1 { preco := some 0, nome := some "" }).2
      = some (applyUpdate demoPerfume1 { preco := some 0, nome := some "" }) ∧
    (applyUpdate demoPerfume1 { preco := some 0, nome := some "" }).preco = 0 ∧
    (applyUpdate demoPerfume1 { preco := some 0, nome := some "" }).nome = "" ∧
    (applyUpdate demoPerfume1 { preco := some 0, nome := some "" }).estoque
      = demoPerfume1.estoque ∧
    (applyUpdate demoPerfume1 { preco := some 0, nome := some "" }).marca
      = demoPerfume1.marca ∧
    update_perfume demoState 1 noUpdate = (demoState, get_perfume demoState 1) := by
  refine ⟨rfl, ?_, rfl, ?_, rfl, rfl, rfl, rfl, ?_⟩
  · exact (updateProduct_partial_overwrite demoState 7 { preco := some 0 }).1 rfl
  · exact ((updateProduct_partial_overwrite demoState 1
      { preco := some 0, nome := some "" }).2.1 demoPerfume1 rfl).1
  · exact (updateProduct_partial_overwrite demoState 1 noUpdate).2.2

/-! ### C6: deleteProduct -/

theorem deleteList_not_mem (ps : List Perfume) (id : Nat)
    (h : ∀ p ∈ ps, p.id ≠ id) : deleteList ps id = (ps, none) := by
  induction ps with
  | nil => rfl
  | cons hd tl ih =>
    have hhd : hd.id ≠ id := h hd (List.mem_cons_self hd tl)
    simp [deleteList, if_neg hhd,
      ih (fun p hp => h p (List.mem_cons_of_mem hd hp))]

theorem deleteList_first (pre : List Perfume) (p : Perfume)
    (post : List Perfume) (id : Nat) (hp : p.id = id)
    (hpre : ∀ q ∈ pre, q.id ≠ id) :
    deleteList (pre ++ p :: post) id = (pre ++ post, some p) := by
  induction pre with
  | nil => simp [deleteList, if_pos hp]
  | cons hd tl ih =>
    have hhd : hd.id ≠ id := hpre hd (List.mem_cons_self hd tl)
    simp [deleteList, if_neg hhd,
      ih (fun q hq => hpre q (List.mem_cons_of_mem hd hq))]

/-- C6: `delete_perfume` on a present id removes exactly the (first)
record carrying that id, returns it, and keeps every other record in its
relative order; on an absent id it returns `none` (no exception — the
function is total) and leaves the product list, and the whole state,
unchanged. -/
theorem deleteProduct_removes (s : NovusAromaEstoque) (id : Nat) :
    ((∀ p ∈ s.perfumes, p.id ≠ id) → delete_perfume s id = (s, none)) ∧
    (∀ pre p post, s.perfumes = pre ++ p :: post → p.id = id →
      (∀ q ∈ pre, q.id ≠ id) →
      delete_perfume s id = ({ s with perfumes := pre ++ post }, some p)) := by
  constructor
  · intro h
    show ({ s with perfumes := (deleteList s.perfumes id).1 },
          (deleteList s.perfumes id).2) = (s, none)
    rw [deleteList_not_mem s.perfumes id h]
  · intro pre p post hs hp hpre
    show ({ s with perfumes := (deleteList s.perfumes id).1 },
          (deleteList s.perfumes id).2)
        = ({ s with perfumes := pre ++ post }, some p)
    rw [hs, deleteList_first pre p post id hp hpre]

/-- Witness for C6: deleting id 2 from the demo ledger removes exactly the
second product and returns it, keeping the first in place; deleting the
absent id 7 returns `none` and changes nothing. -/
theorem deleteProduct_removes_witness :
    demoState.perfumes = [demoPerfume1] ++ demoPerfume2 :: [] ∧
    demoPerfume2.id = 2 ∧
    delete_perfume demoState 2
      = ({ demoState with perfumes := [demoPerfume1] ++ [] }, some demoPerfume2) ∧
    (∀ p ∈ demoState.perfumes, p.id ≠ 7) ∧
    delete_perfume demoState 7 = (demoState, none) := by
  refine ⟨rfl, rfl, ?_, by decide, ?_⟩
  · exact (deleteProduct_removes demoState 2).2 [demoPerfume1] demoPerfume2 []
      rfl rfl (by decide)
  · exact (deleteProduct_removes demoState 7).1 (by decide)

/-! ### C5: listProducts filtering -/

theorem listContainsSub_nil (l : List Char) : listContainsSub [] l = true := by
  cases l with
  | nil => rfl
  | cons c rest => rfl

theorem strContains_empty_needle (hay : String) : strContains hay "" = true :=
  listContainsSub_nil hay.data

/-- Stated from the spec: a product matches the search term when its name
OR its brand contains the term as a case-insensitive substring. -/
def specSearchMatch (term : String) (p : Perfume) : Bool :=
  strContains (lowerStr p.nome) (lowerStr term) ||
    strContains (lowerStr p.marca) (lowerStr term)

theorem specSearchMatch_empty (p : Perfume) : specSearchMatch "" p = true := by
  have h : lowerStr "" = "" := rfl
  simp [specSearchMatch, h, strContains_empty_needle]

/-- Counterexample for C5 as frozen: with the two demo products (categories
`"Feminino"` and `"Masculino"`), the concrete category `""` does not give
back "exactly the products whose category equals `\x7b\x7d`": the empty
string is falsy, so the filter is skipped and both products come back. -/
theorem listProducts_empty_category_counterexample :
    get_perfumes demoState (some "") none
      ≠ demoState.perfumes.filter (fun p => p.categoria == "") := by
  intro h
  have h2 := congrArg List.length h
  have hL : (get_perfumes demoState (some "") none).length = 2 := rfl
  have hR : (demoState.perfumes.filter (fun p => p.categoria == "")).length = 0 := rfl
  rw [hL, hR] at h2
  cases h2

/-- C5 as amended: `"Todos"` (and, forced by the counterexample, only a
non-empty category other than `"Todos"` triggers the filter) — the
category filter is exact match in ledger order, and the search term keeps
exactly the products whose name or brand contains it case-insensitively. -/
theorem listProducts_filter_semantics (s : NovusAromaEstoque) (c term : String) :
    get_perfumes s none none = s.perfumes ∧
    get_perfumes s (some "Todos") none = s.perfumes ∧
    get_perfumes s (some "Todos") (some term)
      = s.perfumes.filter (specSearchMatch term) ∧
    (c ≠ "" → c ≠ "Todos" →
      get_perfumes s (some c) none
        = s.perfumes.filter (fun p => p.categoria == c) ∧
      get_perfumes s (some c) (some term)
        = s.perfumes.filter (fun p => p.categoria == c && specSearchMatch term p)) := by
  refine ⟨rfl, by simp [get_perfumes], ?_, ?_⟩
  · by_cases ht : term = ""
    · subst ht
      simp only [get_perfumes, bne_self_eq_false, Bool.false_and, Bool.and_false,
        Bool.false_eq_true, if_false]
      exact (List.filter_eq_self.mpr (fun p _ => specSearchMatch_empty p)).symm
    · simp only [get_perfumes, bne_self_eq_false, Bool.and_false,
        Bool.false_eq_true, if_false]
      rw [if_pos (by simpa [bne_iff_ne] using ht)]
      exact rfl
  · intro hc hcT
    have hcat : ((c != "") && (c != "Todos")) = true := by
      simp [bne_iff_ne, hc, hcT]
    constructor
    · simp [get_perfumes, hcat]
    · by_cases ht : term = ""
      · subst ht
        have hpred : (fun p => p.categoria == c && specSearchMatch "" p)
            = fun p => p.categoria == c := by
          funext p
          simp [specSearchMatch_empty]
        rw [hpred]
        simp [get_perfumes, hcat]
      · simp only [get_perfumes, hcat, if_true]
        rw [if_pos (by simpa [bne_iff_ne] using ht), List.filter_filter]
        refine List.filter_congr ?_
        intro p _
        simp [specSearchMatch, Bool.and_comm]

/-- Witness for the amended C5: on the demo ledger,
`listProducts("Masculino")` returns exactly the masculine product,
`listProducts("Todos")` returns all, and the search term `"chanel"`
keeps exactly the product named `"Chanel N°5"`. -/
theorem listProducts_filter_semantics_witness :
    ("Masculino" : String) ≠ "" ∧ ("Masculino" : String) ≠ "Todos" ∧
    get_perfumes demoState (some "Todos") none = demoState.perfumes ∧
    get_perfumes demoState (some "Masculino") none
      = demoState.perfumes.filter (fun p => p.categoria == "Masculino") ∧
    get_perfumes demoState (some "Masculino") none = [demoPerfume2] ∧
    get_perfumes demoState (some "Todos") (some "chanel")
      = demoState.perfumes.filter (specSearchMatch "chanel") ∧
    get_perfumes demoState (some "Todos") (some "chanel") = [demoPerfume1] := by
  have H := listProducts_filter_semantics demoState "Masculino" "chanel"
  exact ⟨by decide, by decide, H.2.1, (H.2.2.2 (by decide) (by decide)).1, rfl,
    H.2.2.1, rfl⟩

/-! ### C7: inventory totals -/

/-- C7: `get_total_items` is the sum of all stocks and `get_total_value`
the sum of price times stock; on the two-product example ledger they give
`20` and `450*12 + 380*8 = 8440`. -/
theorem inventory_totals :
    (∀ s : NovusAromaEstoque,
      get_total_items s = (s.perfumes.map (fun p => p.estoque)).sum ∧
      get_total_value s = (s.perfumes.map (fun p => p.preco * (p.estoque : ℚ))).sum) ∧
    get_total_items demoState = 20 ∧
    get_total_value demoState = 450 * 12 + 380 * 8 ∧
    get_total_value demoState = 8440 := by
  refine ⟨fun s => ⟨rfl, rfl⟩, by decide, ?_, ?_⟩
  · norm_num [get_total_value, demoState, add_perfume, initial]
  · norm_num [get_total_value, demoState, add_perfume, initial]

/-! ### C8: unique customers -/

/-- C8: `get_sales_stats` counts as `unique_customers` the number of
distinct non-empty customer names — the cardinality of the finite set of
non-empty names; appending a sale with an empty name, or with a name that
already appears, leaves that count unchanged. -/
theorem salesStats_uniqueCustomers (s : NovusAromaEstoque) (today : String) :
    (get_sales_stats s today).unique_customers
      = ((s.vendas.map (fun v => v.customerName)).filter
          (fun n => n != "")).toFinset.card ∧
    (∀ v : Venda, v.customerName = "" →
      (get_sales_stats { s with vendas := s.vendas ++ [v] } today).unique_customers
        = (get_sales_stats s today).unique_customers) ∧
    (∀ v : Venda, v.customerName ∈ s.vendas.map (fun w => w.customerName) →
      (get_sales_stats { s with vendas := s.vendas ++ [v] } today).unique_customers
        = (get_sales_stats s today).unique_customers) := by
  refine ⟨(List.card_toFinset _).symm, ?_, ?_⟩
  · intro v hv
    show (((s.vendas ++ [v]).map (fun w => w.customerName)).filter
        (fun n => n != "")).dedup.length
      = ((s.vendas.map (fun w => w.customerName)).filter
        (fun n => n != "")).dedup.length
    simp [List.filter_append, hv]
  · intro v hv
    by_cases hn : v.customerName = ""
    · show (((s.vendas ++ [v]).map (fun w => w.customerName)).filter
          (fun n => n != "")).dedup.length
        = ((s.vendas.map (fun w => w.customerName)).filter
          (fun n => n != "")).dedup.length
      simp [List.filter_append, hn]
    · have hmem : v.customerName ∈
          (s.vendas.map (fun w => w.customerName)).filter (fun n => n != "") := by
        rw [List.mem_filter]
        exact ⟨hv, by simp [hn]⟩
      show (((s.vendas ++ [v]).map (fun w => w.customerName)).filter
          (fun n => n != "")).dedup.length
        = ((s.vendas.map (fun w => w.customerName)).filter
          (fun n => n != "")).dedup.length
      rw [← List.card_toFinset, ← List.card_toFinset]
      congr 1
      simp only [List.map_append, List.filter_append, List.map_cons,
        List.map_nil]
      have hone : List.filter (fun n => n != "") [v.customerName]
          = [v.customerName] := by
        simp [hn]
      rw [hone, List.toFinset_append]
      have : ([v.customerName] : List String).toFinset = {v.customerName} := by
        simp
      rw [this, Finset.union_comm, ← Finset.insert_eq]
      exact Finset.insert_eq_self.mpr (List.mem_toFinset.mpr hmem)

/-- A concrete sale record used in witnesses. -/
def demoSale (name : String) : Venda :=
  { id := 1, productId := 1, productName := "Chanel N°5",
    productBrand := "Chanel", quantity := 1, unitPrice := 10, total := 10,
    customerName := name, customerPhone := none, customerInstagram := none,
    customerEmail := none, postedInstagram := "Não",
    salesChannel := "Instagram", deliveryLocation := "Retirada na Loja",
    paymentMethod := "PIX", installments := 1, cardFee := 0,
    saleNotes := none, date := "2026-01-01T00:00:00" }

/-- A ledger whose sales list has two named customers, one of them twice
by way of the witness, and one anonymous (empty-name) sale. -/
def salesState : NovusAromaEstoque :=
  { perfumes := [], vendas := [demoSale "Ana", demoSale "Bia", demoSale ""],
    perfume_id_counter := 1, vendas_id_counter := 4 }

/-- Witness for C8: with sales by "Ana", "Bia" and an empty name, the
unique-customer count is 2; a second "Ana" sale leaves it at 2, as does a
further empty-name sale. -/
theorem salesStats_uniqueCustomers_witness :
    (get_sales_stats salesState "2026-01-01").unique_customers
      = ((salesState.vendas.map (fun v => v.customerName)).filter
          (fun n => n != "")).toFinset.card ∧
    (get_sales_stats salesState "2026-01-01").unique_customers = 2 ∧
    (demoSale "Ana").customerName
      ∈ salesState.vendas.map (fun w => w.customerName) ∧
    (get_sales_stats { salesState with
        vendas := salesState.vendas ++ [demoSale "Ana"] }
      "2026-01-01").unique_customers
      = (get_sales_stats salesState "2026-01-01").unique_customers ∧
    (demoSale "").customerName = "" ∧
    (get_sales_stats { salesState with
        vendas := salesState.vendas ++ [demoSale ""] }
      "2026-01-01").unique_customers
      = (get_sales_stats salesState "2026-01-01").unique_customers := by
  have H := salesStats_uniqueCustomers salesState "2026-01-01"
  exact ⟨H.1, by decide, by decide, H.2.2 (demoSale "Ana") (by decide), rfl,
    H.2.1 (demoSale "") rfl⟩

/-! ### C9: the None-as-sentinel convention for update -/

/-- C9: because `update_perfume` treats `none` for a field as "no change",
no update can ever clear a field back to `None`: when an update on a
present id returns a record, a `none` image argument leaves the image
unchanged, an image that was set stays set, and the image can be absent
afterwards only if it was absent before — "set to None" and "omitted" are
one and the same argument value. -/
theorem updateProduct_none_sentinel (s : NovusAromaEstoque) (id : Nat)
    (a : UpdateArgs) (p p' : Perfume) (h1 : get_perfume s id = some p)
    (h2 : (update_perfume s id a).2 = some p') :
    (a.imagem = none → p'.imagem = p.imagem) ∧
    (p.imagem ≠ none → p'.imagem ≠ none) ∧
    (p'.imagem = none → p.imagem = none) := by
  have h3 : (updateList s.perfumes id a).2 = some (applyUpdate p a) :=
    updateList_find?_some s.perfumes id a p h1
  have h4 : some (applyUpdate p a) = some p' := h3.symm.trans h2
  have h5 : p' = applyUpdate p a := (Option.some.inj h4).symm
  subst h5
  rw [applyUpdate_fields]
  cases hai : a.imagem with
  | none => exact ⟨fun _ => rfl, fun h => h, fun h => h⟩
  | some v =>
    exact ⟨fun hcon => absurd hcon (by simp), fun _ => by simp,
      fun hcon => absurd hcon (by simp)⟩

/-- A product whose optional image is set, for the C9 witness. -/
def pImg : Perfume :=
  { id := 1, nome := "Chanel N°5", marca := "Chanel", preco := 450,
    estoque := 12, ml := 100, categoria := "Feminino",
    imagem := some "chanel.png" }

/-- A one-product ledger whose product has an image. -/
def imgState : NovusAromaEstoque :=
  { perfumes := [pImg], vendas := [], perfume_id_counter := 2,
    vendas_id_counter := 1 }

/-- Witness for C9: updating the product while omitting the image (or
supplying the absent marker — the same argument value) leaves the image
set; after any update returning a record, the image of that record is
still present. -/
theorem updateProduct_none_sentinel_witness :
    get_perfume imgState 1 = some pImg ∧
    (update_perfume imgState 1 { nome := some "Z" }).2
      = some (applyUpdate pImg { nome := some "Z" }) ∧
    (applyUpdate pImg { nome := some "Z" }).imagem = pImg.imagem ∧
    (applyUpdate pImg { nome := some "Z" }).imagem ≠ none ∧
    (update_perfume imgState 1 noUpdate).2 = some (applyUpdate pImg noUpdate) ∧
    (applyUpdate pImg noUpdate).imagem = pImg.imagem := by
  have H1 := updateProduct_none_sentinel imgState 1 { nome := some "Z" }
    pImg (applyUpdate pImg { nome := some "Z" }) rfl rfl
  have H2 := updateProduct_none_sentinel imgState 1 noUpdate
    pImg (applyUpdate pImg noUpdate) rfl rfl
  exact ⟨rfl, rfl, H1.1 rfl, H1.2.1 (by decide), rfl, H2.1 rfl⟩

/-! ### C10: falsy filter arguments mean "no filter" -/

/-- C10: in `get_perfumes` and `get_sales` the empty string — like the
documented `"Todos"` sentinel — is falsy and disables the corresponding
filter entirely, so filtering on an empty category, channel, payment or
search term returns everything (and hence can never select just the
records carrying that empty value). -/
theorem falsy_filters_mean_no_filter (s : NovusAromaEstoque)
    (t c st ch pm : Option String) :
    get_perfumes s (some "") t = get_perfumes s none t ∧
    get_perfumes s c (some "") = get_perfumes s c none ∧
    get_perfumes s (some "") none = s.perfumes ∧
    get_perfumes s (some "") (some "") = s.perfumes ∧
    get_sales s (some "") ch pm = get_sales s none ch pm ∧
    get_sales s st (some "") pm = get_sales s st none pm ∧
    get_sales s st ch (some "") = get_sales s st ch none ∧
    get_sales s (some "") (some "") (some "") = s.vendas :=
  ⟨rfl, rfl, rfl, rfl, rfl, rfl, rfl, rfl⟩
